import Mathlib

/-!
Shallow embedding of the law-search-server serverless handlers.

The repository has two handler files:
* `src/api/index.js` — the current endpoint: validates `query`, checks the
  `LAW_API_KEY` credential, dispatches on `target` (`prec` or `law`), performs a
  stage-1 list search against `lawSearch.do`, sniffs HTML error pages by the
  literal prefix `<!DOCTYPE html`, parses the XML (via `xml-js` + `JSON.parse`),
  normalizes a single record to a one-element array, and for `prec` enriches each
  record concurrently by scraping its `판례상세링크` detail page with cheerio.
* `src/index.js` — the earlier plain-text variant: `prec` only, enrichment via the
  `lawService.do?...&type=TEXT` endpoint keyed by the record id, and an output
  `link` field built from the credential and the id.

Network I/O, the `xml-js` XML parser, `encodeURIComponent` and the cheerio
selector cascade are modelled as oracle functions carried in an environment
record; everything the handlers do with their results is embedded directly from
the JavaScript. Each handler returns its HTTP response together with a trace of
the upstream URLs it fetched (stage-1 list fetches and per-record detail
fetches), so that "no upstream fetch is issued" is expressible.
-/

/-- JS `opt || dflt` on an optional string field access such as
`item.사건번호?._text || '번호 없음'`: the default applies when the field is
absent (`undefined`) and also when it is present but the empty string, because
`''` is falsy in JavaScript. -/
def jsOr : Option String → String → String
  | none, d => d
  | some s, d => if s = "" then d else s

/-- JS truthiness of a possibly-absent string (`if (!query)`, `if (!apiKey)`):
truthy iff present and non-empty. -/
def jsTruthy : Option String → Bool
  | none => false
  | some s => s != ""

/-- JS `String.prototype.trim()`: strip leading and trailing whitespace,
modelled on the character list of the string. -/
def jsTrim (s : String) : String :=
  ⟨((s.data.dropWhile Char.isWhitespace).reverse.dropWhile Char.isWhitespace).reverse⟩

/-- JS `String.prototype.startsWith(pre)`, modelled on character lists. -/
def jsStartsWith (s pre : String) : Bool :=
  pre.data.isPrefixOf s.data

/-- A raw case-law record as produced by `xml2json`'s compact mode: each field
models `item.<name>?._text` (for `판시사항`, `item.판시사항?._cdata`) — `none`
when the element or its text is absent, `some s` when text `s` is present. -/
structure RawPrec where
  «판례일련번호» : Option String
  «판례상세링크» : Option String
  «사건번호» : Option String
  «사건명» : Option String
  «법원명» : Option String
  «사건종류명» : Option String
  «선고일자» : Option String
  «판시사항» : Option String
deriving DecidableEq

/-- A raw statute record from the `law` branch of `src/api/index.js`. -/
structure RawLaw where
  «법령일련번호» : Option String
  «법령명» : Option String
  «공포번호» : Option String
  «공포일자» : Option String
  «소관부처» : Option String
  «법령상세링크» : Option String
deriving DecidableEq

/-- The normalized case-law record returned to the client
(`src/api/index.js` lines 111–121, `src/index.js` lines 90–100). -/
structure PrecRecord where
  id : String
  caseNumber : String
  title : String
  courtName : String
  caseType : String
  decisionDate : String
  summary : String
  fullText : String
  link : String
deriving DecidableEq

/-- The normalized statute record returned to the client
(`src/api/index.js` lines 154–161). -/
structure LawRecord where
  id : String
  title : String
  promulgationNumber : String
  promulgationDate : String
  department : String
  link : String
deriving DecidableEq

/-- The shape of `searchParsedData.PrecSearch?.prec`: absent, a single record
object, or an array of record objects. -/
inductive PrecNode where
  | absent
  | single (item : RawPrec)
  | array (items : List RawPrec)
deriving DecidableEq

/-- The shape of `lawSearchParsedData.LawSearch?.law`. -/
inductive LawNode where
  | absent
  | single (item : RawLaw)
  | array (items : List RawLaw)
deriving DecidableEq

/-- Outcome of one `axios.get` on a detail URL: the promise rejects with an
error message, resolves with a non-string body, or resolves with a string
body. -/
inductive DetailOutcome where
  | err (msg : String)
  | okNonStr
  | ok (body : String)
deriving DecidableEq

/-- Outcome of the stage-1 `axios.get` on the list-search URL. -/
inductive ListFetch where
  | err (msg : String)
  | nonStrBody
  | strBody (s : String)
deriving DecidableEq

/-- Oracle environment for `src/api/index.js`: the credential from
`process.env.LAW_API_KEY`, the JS builtin `encodeURIComponent`, the upstream
responses, the composite parser `JSON.parse ∘ xml2json` projected to the
record-list node (`.error` models a thrown parse exception, caught by the
top-level `catch`), and the cheerio scrape: `selectorHit` tells whether any of
the three selector candidates (`div.txt_view`, `div.content_view`, `body`)
matches, and `scrape` is the extracted `.text().trim()` with repeated blank
lines collapsed. -/
structure ApiEnv where
  apiKey : Option String
  encodeURIComponent : String → String
  precListResult : ListFetch
  lawListResult : ListFetch
  parsePrec : String → Except String PrecNode
  parsePrecNonStr : Except String PrecNode
  parseLaw : String → Except String LawNode
  parseLawNonStr : Except String LawNode
  detailFetch : String → DetailOutcome
  selectorHit : String → Bool
  scrape : String → String

/-- An inbound HTTP request: method plus the `query` and `target` query-string
parameters (absent or present with a string value). -/
structure Request where
  method : String
  query : Option String
  target : Option String
deriving DecidableEq

/-- The body the handler sends: nothing (`res.end()`), `{error}`,
`{error, details}`, or `{results: [...]}` for either record shape. -/
inductive ResponseBody where
  | empty
  | err (error : String)
  | errDetails (error details : String)
  | precResults (results : List PrecRecord)
  | lawResults (results : List LawRecord)
deriving DecidableEq

/-- An HTTP response: status code and body. -/
structure HttpResponse where
  status : Nat
  body : ResponseBody
deriving DecidableEq

/-- Trace of outbound fetches made while serving one request: stage-1
list-search URLs and stage-2 per-record detail URLs, in issue order. -/
structure Trace where
  listFetches : List String
  detailFetches : List String
deriving DecidableEq

/-- The stage-1 list-search URL
(`src/api/index.js` lines 38 and 125, `src/index.js` line 34). -/
def lawSearchUrl (enc : String → String) (apiKey target query : String) : String :=
  "https://www.law.go.kr/DRF/lawSearch.do?OC=" ++ apiKey ++ "&target=" ++ target ++
    "&type=XML&query=" ++ enc query ++ "&display=100"

/-- Models `let precList = ... || []; if (precList && !Array.isArray(precList)) precList = [precList];`
(`src/api/index.js` lines 56–59, `src/index.js` lines 53–56). -/
def precListOf : PrecNode → List RawPrec
  | .absent => []
  | .single item => [item]
  | .array items => items

/-- Same single-object normalization for the `law` branch
(`src/api/index.js` lines 143–146). -/
def lawListOf : LawNode → List RawLaw
  | .absent => []
  | .single item => [item]
  | .array items => items

/-- Default `fullTextContent` before any enrichment attempt
(`src/api/index.js` line 66, `src/index.js` line 63). -/
def precDefaultFullText : String := "판결문 전문을 가져올 수 없습니다."

/-- Stage-2 enrichment of one case record in `src/api/index.js` (lines 71–108):
fetch `detailHtmlLink`; on rejection the catch sets the failure placeholder with
the error message; on a string body starting (after trim) with `<!DOCTYPE html`
run the cheerio selector cascade, substituting a placeholder when the extracted
text is empty; otherwise the unexpected-response placeholder. -/
def precFullText (env : ApiEnv) (detailHtmlLink : String) : String :=
  match env.detailFetch detailHtmlLink with
  | .err msg => "판결문 전문을 가져오는 데 실패했습니다: " ++ msg
  | .okNonStr => "판결문 전문을 가져오는 중 오류 발생 (예상치 못한 API 응답)."
  | .ok htmlData =>
    if jsStartsWith (jsTrim htmlData) "<!DOCTYPE html" then
      let extractedText :=
        if env.selectorHit htmlData then env.scrape htmlData
        else "판결문 전문을 추출할 수 없습니다. HTML 구조를 확인해주세요."
      if extractedText = "" then "판결문 전문 내용이 없습니다." else extractedText
    else "판결문 전문을 가져오는 중 오류 발생 (예상치 못한 API 응답)."

/-- The per-record mapping of the `prec` branch of `src/api/index.js`
(lines 63–122): returns the normalized record together with the detail URLs
fetched for this record (`[detailHtmlLink]` when the guard
`if (caseId && detailHtmlLink)` passes, `[]` otherwise). -/
def formatPrecItem (env : ApiEnv) (item : RawPrec) : PrecRecord × List String :=
  let caseId := jsOr item.«판례일련번호» ""
  let detailHtmlLink := jsOr item.«판례상세링크» ""
  let step2 :=
    if caseId ≠ "" ∧ detailHtmlLink ≠ "" then
      (precFullText env detailHtmlLink, [detailHtmlLink])
    else (precDefaultFullText, ([] : List String))
  ({ id := caseId
     caseNumber := jsOr item.«사건번호» "번호 없음"
     title := jsOr item.«사건명» "제목 없음"
     courtName := jsOr item.«법원명» "법원 없음"
     caseType := jsOr item.«사건종류명» "종류 없음"
     decisionDate := jsOr item.«선고일자» "날짜 없음"
     summary := jsOr item.«판시사항» "요약 정보 없음"
     fullText := step2.1
     link := detailHtmlLink }, step2.2)

/-- The per-record mapping of the `law` branch of `src/api/index.js`
(lines 150–162); no detail fetch is made for statutes. -/
def formatLawItem (item : RawLaw) : LawRecord :=
  let lawDetailLink := jsOr item.«법령상세링크» ""
  { id := jsOr item.«법령일련번호» ""
    title := jsOr item.«법령명» "제목 정보 없음"
    promulgationNumber := jsOr item.«공포번호» "번호 없음"
    promulgationDate := jsOr item.«공포일자» "날짜 없음"
    department := jsOr item.«소관부처» "소관부처 없음"
    link := lawDetailLink }

/-- Runs `Promise.all(precList.map(...))` followed by `res.status(200).json({results})`
in the `prec` branch, with the detail-fetch trace collected across records. -/
def precStage2 (env : ApiEnv) (url : String) (node : PrecNode) : HttpResponse × Trace :=
  let mapped := (precListOf node).map (formatPrecItem env)
  (⟨200, .precResults (mapped.map Prod.fst)⟩, ⟨[url], (mapped.map Prod.snd).flatten⟩)

/-- The `prec` branch of `src/api/index.js` (lines 36–122), starting at the
stage-1 fetch; a rejected fetch or a thrown parse lands in the top-level catch
(lines 169–172). -/
def precBranch (env : ApiEnv) (apiKey query : String) : HttpResponse × Trace :=
  let searchApiUrl := lawSearchUrl env.encodeURIComponent apiKey "prec" query
  match env.precListResult with
  | .err msg =>
    (⟨500, .errDetails "법률 정보를 가져오는 데 실패했습니다." msg⟩, ⟨[searchApiUrl], []⟩)
  | .nonStrBody =>
    match env.parsePrecNonStr with
    | .error msg =>
      (⟨500, .errDetails "법률 정보를 가져오는 데 실패했습니다." msg⟩, ⟨[searchApiUrl], []⟩)
    | .ok node => precStage2 env searchApiUrl node
  | .strBody searchXmlData =>
    if jsStartsWith (jsTrim searchXmlData) "<!DOCTYPE html" then
      (⟨500, .errDetails "국가법령정보 API 오류: 예상치 못한 HTML 응답 (판례 목록 검색)"
          "API 키가 유효하지 않거나, 요청이 잘못되었을 수 있습니다. 법제처에 문의하여 API 키를 확인해주세요."⟩,
        ⟨[searchApiUrl], []⟩)
    else
      match env.parsePrec searchXmlData with
      | .error msg =>
        (⟨500, .errDetails "법률 정보를 가져오는 데 실패했습니다." msg⟩, ⟨[searchApiUrl], []⟩)
      | .ok node => precStage2 env searchApiUrl node

/-- The `law` branch of `src/api/index.js` (lines 123–162). -/
def lawBranch (env : ApiEnv) (apiKey query : String) : HttpResponse × Trace :=
  let lawSearchApiUrl := lawSearchUrl env.encodeURIComponent apiKey "law" query
  let stage2 : LawNode → HttpResponse × Trace := fun node =>
    (⟨200, .lawResults ((lawListOf node).map formatLawItem)⟩, ⟨[lawSearchApiUrl], []⟩)
  match env.lawListResult with
  | .err msg =>
    (⟨500, .errDetails "법률 정보를 가져오는 데 실패했습니다." msg⟩, ⟨[lawSearchApiUrl], []⟩)
  | .nonStrBody =>
    match env.parseLawNonStr with
    | .error msg =>
      (⟨500, .errDetails "법률 정보를 가져오는 데 실패했습니다." msg⟩, ⟨[lawSearchApiUrl], []⟩)
    | .ok node => stage2 node
  | .strBody lawSearchXmlData =>
    if jsStartsWith (jsTrim lawSearchXmlData) "<!DOCTYPE html" then
      (⟨500, .errDetails "국가법령정보 API 오류: 예상치 못한 HTML 응답 (법령 목록 검색)"
          "API 키가 유효하지 않거나, 요청이 잘못되었을 수 있습니다. 법제처에 문의하여 API 키를 확인해주세요."⟩,
        ⟨[lawSearchApiUrl], []⟩)
    else
      match env.parseLaw lawSearchXmlData with
      | .error msg =>
        (⟨500, .errDetails "법률 정보를 가져오는 데 실패했습니다." msg⟩, ⟨[lawSearchApiUrl], []⟩)
      | .ok node => stage2 node

/-- The exported handler of `src/api/index.js`: OPTIONS short-circuit, `query`
validation, `LAW_API_KEY` check, then dispatch on `target`. -/
def handleApi (env : ApiEnv) (req : Request) : HttpResponse × Trace :=
  if req.method = "OPTIONS" then (⟨200, .empty⟩, ⟨[], []⟩)
  else if !jsTruthy req.query then
    (⟨400, .err "검색어가 필요합니다."⟩, ⟨[], []⟩)
  else if !jsTruthy env.apiKey then
    (⟨500, .err "서버 설정 오류: API 키가 누락되었습니다."⟩, ⟨[], []⟩)
  else if req.target = some "prec" then
    precBranch env (env.apiKey.getD "") (req.query.getD "")
  else if req.target = some "law" then
    lawBranch env (env.apiKey.getD "") (req.query.getD "")
  else (⟨400, .err "유효하지 않은 검색 대상입니다. (target 파라미터 오류)"⟩, ⟨[], []⟩)

/-- Oracle environment for the plain-text handler `src/index.js`. -/
structure TextEnv where
  apiKey : Option String
  encodeURIComponent : String → String
  searchResult : ListFetch
  parsePrec : String → Except String PrecNode
  parsePrecNonStr : Except String PrecNode
  detailFetch : String → DetailOutcome

/-- The `lawService.do` detail URL of `src/index.js` (lines 66 and 99),
parameterized by the response type (`TEXT` for the fetch, `HTML` for the
returned link). -/
def lawServiceUrl (apiKey caseId ty : String) : String :=
  "https://www.law.go.kr/DRF/lawService.do?OC=" ++ apiKey ++ "&target=prec&ID=" ++
    caseId ++ "&type=" ++ ty

/-- Stage-2 enrichment of `src/index.js` (lines 69–87): fetch the `type=TEXT`
URL; an HTML body (doctype sniff) yields the API-problem placeholder, a blank
trimmed body yields the empty-content placeholder, otherwise the trimmed body is
used verbatim; a rejection is caught and reported in the placeholder. On a
non-string body the sniff is false and `jsTrim rawFullText()` throws a TypeError,
caught by the same catch; its JS message is modelled literally. -/
def textFullText (env : TextEnv) (url : String) : String :=
  match env.detailFetch url with
  | .err msg => "판결문 전문을 가져오는 데 실패했습니다: " ++ msg
  | .okNonStr => "판결문 전문을 가져오는 데 실패했습니다: jsTrim rawFullText is not a function"
  | .ok rawFullText =>
    if jsStartsWith (jsTrim rawFullText) "<!DOCTYPE html" then
      "판결문 전문을 가져오는 중 오류 발생 (API 응답 문제)."
    else if jsTrim rawFullText = "" then "판결문 전문 내용이 없습니다."
    else jsTrim rawFullText

/-- The per-record mapping of `src/index.js` (lines 61–101): the detail fetch is
guarded by `if (caseId)` alone, and the returned `link` embeds the credential
and the id in a `type=HTML` `lawService.do` URL. -/
def formatTextItem (env : TextEnv) (apiKey : String) (item : RawPrec) :
    PrecRecord × List String :=
  let caseId := jsOr item.«판례일련번호» ""
  let step2 :=
    if caseId ≠ "" then
      (textFullText env (lawServiceUrl apiKey caseId "TEXT"), [lawServiceUrl apiKey caseId "TEXT"])
    else (precDefaultFullText, ([] : List String))
  ({ id := caseId
     caseNumber := jsOr item.«사건번호» "번호 없음"
     title := jsOr item.«사건명» "제목 없음"
     courtName := jsOr item.«법원명» "법원 없음"
     caseType := jsOr item.«사건종류명» "종류 없음"
     decisionDate := jsOr item.«선고일자» "날짜 없음"
     summary := jsOr item.«판시사항» "요약 정보 없음"
     fullText := step2.1
     link := lawServiceUrl apiKey caseId "HTML" }, step2.2)

/-- The exported handler of `src/index.js` (plain-text enrichment variant);
`target` is ignored, the search always uses `target=prec`. -/
def handleText (env : TextEnv) (req : Request) : HttpResponse × Trace :=
  if req.method = "OPTIONS" then (⟨200, .empty⟩, ⟨[], []⟩)
  else if !jsTruthy req.query then
    (⟨400, .err "검색어가 필요합니다."⟩, ⟨[], []⟩)
  else if !jsTruthy env.apiKey then
    (⟨500, .err "서버 설정 오류: API 키가 누락되었습니다."⟩, ⟨[], []⟩)
  else
    let apiKey := env.apiKey.getD ""
    let searchApiUrl := lawSearchUrl env.encodeURIComponent apiKey "prec" (req.query.getD "")
    let stage2 : PrecNode → HttpResponse × Trace := fun node =>
      let mapped := (precListOf node).map (formatTextItem env apiKey)
      (⟨200, .precResults (mapped.map Prod.fst)⟩, ⟨[searchApiUrl], (mapped.map Prod.snd).flatten⟩)
    match env.searchResult with
    | .err msg =>
      (⟨500, .errDetails "판례 정보를 가져오는 데 실패했습니다." msg⟩, ⟨[searchApiUrl], []⟩)
    | .nonStrBody =>
      match env.parsePrecNonStr with
      | .error msg =>
        (⟨500, .errDetails "판례 정보를 가져오는 데 실패했습니다." msg⟩, ⟨[searchApiUrl], []⟩)
      | .ok node => stage2 node
    | .strBody searchXmlData =>
      if jsStartsWith (jsTrim searchXmlData) "<!DOCTYPE html" then
        (⟨500, .errDetails "국가법령정보 API 오류: 예상치 못한 HTML 응답 (목록 검색)"
            "API 키가 유효하지 않거나, 요청이 잘못되었을 수 있습니다. 법제처에 문의하여 API 키를 확인해주세요."⟩,
          ⟨[searchApiUrl], []⟩)
      else
        match env.parsePrec searchXmlData with
        | .error msg =>
          (⟨500, .errDetails "판례 정보를 가져오는 데 실패했습니다." msg⟩, ⟨[searchApiUrl], []⟩)
        | .ok node => stage2 node

/-- One possible settlement schedule of the concurrent stage-2 fan-out of
`Promise.all(precList.map(...))`: the per-record promises settle in the order
given by `order` (a permutation of the record indices), each settlement carrying
the index of its promise together with its value. -/
def promiseAllResolve {α : Type} (vals : List α) (order : List Nat) : List (Nat × α) :=
  order.filterMap fun i => vals[i]?.map fun v => (i, v)

/-- Model of `Promise.all` reassembly: position `i` of the awaited array holds the value
settled for promise `i`, whatever position that settlement had in the
schedule. -/
def assembleByIndex {α : Type} (n : Nat) (completions : List (Nat × α)) : List (Option α) :=
  (List.range n).map fun i => (completions.find? fun p => p.1 == i).map Prod.snd

theorem promiseAllResolve_mem {α : Type} (vals : List α) (order : List Nat)
    (y : Nat × α) (hy : y ∈ promiseAllResolve vals order) : vals[y.1]? = some y.2 := by
  rcases List.mem_filterMap.mp hy with ⟨j, _, hmap⟩
  cases h : vals[j]? with
  | none => rw [h] at hmap; simp at hmap
  | some v =>
    rw [h] at hmap
    simp only [Option.map_some', Option.some.injEq] at hmap
    subst hmap
    exact h

/-- Index-based reassembly of any settlement schedule that is a permutation of
the record indices recovers exactly the input list, in input order. -/
theorem assembleByIndex_promiseAllResolve {α : Type} (vals : List α) (order : List Nat)
    (hperm : order.Perm (List.range vals.length)) :
    assembleByIndex vals.length (promiseAllResolve vals order) = vals.map some := by
  apply List.ext_getElem
  · simp [assembleByIndex]
  · intro i h1 h2
    simp only [assembleByIndex, List.getElem_map, List.getElem_range]
    have hi : i < vals.length := by simpa [assembleByIndex] using h1
    have hmem : ((i, vals[i]) : Nat × α) ∈ promiseAllResolve vals order := by
      apply List.mem_filterMap.mpr
      refine ⟨i, hperm.mem_iff.mpr (List.mem_range.mpr hi), ?_⟩
      rw [List.getElem?_eq_getElem hi]
      rfl
    have hsome : ((promiseAllResolve vals order).find? fun p => p.1 == i).isSome :=
      List.find?_isSome.mpr ⟨(i, vals[i]), hmem, by simp⟩
    rcases Option.isSome_iff_exists.mp hsome with ⟨y, hy⟩
    have hp : y.1 = i := by simpa using List.find?_some hy
    have hv : vals[y.1]? = some y.2 :=
      promiseAllResolve_mem vals order y (List.mem_of_find?_eq_some hy)
    rw [hp, List.getElem?_eq_getElem hi] at hv
    rw [hy]
    simp only [Option.map_some']
    exact congrArg some (Option.some.inj hv).symm

theorem String.append_ne_empty_left {s t : String} (h : s ≠ "") : s ++ t ≠ "" := by
  intro he
  have hd : s.data ++ t.data = [] := by rw [← String.data_append, he]
  exact h (String.ext (List.append_eq_nil.mp hd).1)

theorem jsOr_ne_empty (o : Option String) (d : String) (hd : d ≠ "") : jsOr o d ≠ "" := by
  cases o with
  | none => simpa [jsOr]
  | some s => by_cases hs : s = "" <;> simp [jsOr, hs, hd]

theorem ite_empty_subst_ne_empty (e d : String) (hd : d ≠ "") :
    (if e = "" then d else e) ≠ "" := by
  by_cases h : e = "" <;> simp [h, hd]

/-- Every branch of the HTML-scrape enrichment produces a non-empty string. -/
theorem precFullText_ne_empty (env : ApiEnv) (link : String) :
    precFullText env link ≠ "" := by
  unfold precFullText
  cases env.detailFetch link with
  | err msg => exact String.append_ne_empty_left (by decide)
  | okNonStr => dsimp only; decide
  | ok htmlData =>
    dsimp only
    split
    · exact ite_empty_subst_ne_empty _ _ (by decide)
    · decide

/-- Every branch of the plain-text enrichment produces a non-empty string. -/
theorem textFullText_ne_empty (env : TextEnv) (url : String) :
    textFullText env url ≠ "" := by
  unfold textFullText
  cases env.detailFetch url with
  | err msg => exact String.append_ne_empty_left (by decide)
  | okNonStr => dsimp only; decide
  | ok raw =>
    dsimp only
    split
    · decide
    · split
      · decide
      · assumption

theorem precDefaultFullText_ne_empty : precDefaultFullText ≠ "" := by decide

/-- Lemma: `precFullText` consults the environment only through the fetch of the given
link and the scrape oracles. -/
theorem precFullText_congr (env env' : ApiEnv) (link : String)
    (hfd : env'.detailFetch link = env.detailFetch link)
    (hsel : env'.selectorHit = env.selectorHit) (hscr : env'.scrape = env.scrape) :
    precFullText env' link = precFullText env link := by
  unfold precFullText
  rw [hfd, hsel, hscr]

/-- A record's mapping depends on the environment only through the fetch of its
own detail link and the scrape oracles: other records' fetch outcomes are
irrelevant to it. -/
theorem formatPrecItem_congr (env env' : ApiEnv) (item : RawPrec)
    (hfd : env'.detailFetch (jsOr item.«판례상세링크» "") =
      env.detailFetch (jsOr item.«판례상세링크» ""))
    (hsel : env'.selectorHit = env.selectorHit) (hscr : env'.scrape = env.scrape) :
    formatPrecItem env' item = formatPrecItem env item := by
  simp only [formatPrecItem]
  rw [precFullText_congr env env' _ hfd hsel hscr]

/-- A concrete environment used to exercise the theorems on closed inputs. -/
def testApiEnv : ApiEnv where
  apiKey := some "TESTKEY"
  encodeURIComponent := fun s => s
  precListResult := .strBody "<PrecSearch></PrecSearch>"
  lawListResult := .strBody "<LawSearch></LawSearch>"
  parsePrec := fun _ => .ok .absent
  parsePrecNonStr := .ok .absent
  parseLaw := fun _ => .ok .absent
  parseLawNonStr := .ok .absent
  detailFetch := fun _ => .ok ""
  selectorHit := fun _ => true
  scrape := fun _ => ""

/-- A concrete plain-text-handler environment for closed inputs. -/
def testTextEnv : TextEnv where
  apiKey := some "TESTKEY"
  encodeURIComponent := fun s => s
  searchResult := .strBody "<PrecSearch></PrecSearch>"
  parsePrec := fun _ => .ok .absent
  parsePrecNonStr := .ok .absent
  detailFetch := fun _ => .ok "full text"

/-- C2: for every inbound non-OPTIONS request whose `query` parameter is absent
or present but empty, both handlers respond 400 with the fixed message
`검색어가 필요합니다.` and issue no upstream fetch (empty fetch trace). -/
theorem C2_missing_query_400 (env : ApiEnv) (envT : TextEnv) (req : Request)
    (hm : req.method ≠ "OPTIONS") (hq : req.query = none ∨ req.query = some "") :
    handleApi env req = (⟨400, .err "검색어가 필요합니다."⟩, ⟨[], []⟩) ∧
    handleText envT req = (⟨400, .err "검색어가 필요합니다."⟩, ⟨[], []⟩) := by
  have hq' : jsTruthy req.query = false := by
    rcases hq with h | h <;> simp [h, jsTruthy]
  refine ⟨?_, ?_⟩ <;> simp [handleApi, handleText, hm, hq']

/-- Witness for C2 at a concrete GET request with an empty query. -/
theorem C2_missing_query_400_witness :
    handleApi testApiEnv { method := "GET", query := some "", target := some "prec" } =
      (⟨400, .err "검색어가 필요합니다."⟩, ⟨[], []⟩) ∧
    handleText testTextEnv { method := "GET", query := some "", target := some "prec" } =
      (⟨400, .err "검색어가 필요합니다."⟩, ⟨[], []⟩) :=
  C2_missing_query_400 testApiEnv testTextEnv _ (by decide) (Or.inr rfl)

/-- Environment with the credential missing, for the C3 counterexample. -/
def noKeyApiEnv : ApiEnv := { testApiEnv with apiKey := none }

/-- C3 counterexample: with the credential missing but the query empty, the
response has status 400 (the query validation fires before the credential
check), not 500 — so a missing credential does not produce 500 regardless of
the content of the query parameter. -/
theorem C3_counterexample :
    noKeyApiEnv.apiKey = none ∧
    (handleApi noKeyApiEnv { method := "GET", query := some "", target := some "prec" }).1.status
      = 400 ∧
    (handleApi noKeyApiEnv { method := "GET", query := some "", target := some "prec" }).1.status
      ≠ 500 :=
  ⟨rfl, rfl, by decide⟩

/-- C3 (amended): for every non-OPTIONS request whose query is truthy (present
and non-empty), a missing (absent or empty) credential yields 500 with the
configuration-error message and no upstream fetch, in both handlers; and this
body is distinct from the upstream-anomaly and generic-upstream-failure
bodies. -/
theorem C3_missing_key_500 (env : ApiEnv) (envT : TextEnv) (req : Request)
    (hm : req.method ≠ "OPTIONS") (hq : jsTruthy req.query = true)
    (hk : jsTruthy env.apiKey = false) (hkT : jsTruthy envT.apiKey = false) :
    handleApi env req = (⟨500, .err "서버 설정 오류: API 키가 누락되었습니다."⟩, ⟨[], []⟩) ∧
    handleText envT req = (⟨500, .err "서버 설정 오류: API 키가 누락되었습니다."⟩, ⟨[], []⟩) ∧
    (∀ details, ResponseBody.err "서버 설정 오류: API 키가 누락되었습니다." ≠
      .errDetails "국가법령정보 API 오류: 예상치 못한 HTML 응답 (판례 목록 검색)" details) ∧
    (∀ details, ResponseBody.err "서버 설정 오류: API 키가 누락되었습니다." ≠
      .errDetails "법률 정보를 가져오는 데 실패했습니다." details) := by
  refine ⟨?_, ?_, fun d h => ResponseBody.noConfusion h,
    fun d h => ResponseBody.noConfusion h⟩ <;>
    simp [handleApi, handleText, hm, hq, hk, hkT]

/-- Witness for C3 (amended) at a concrete request with a non-empty query. -/
theorem C3_missing_key_500_witness :
    handleApi noKeyApiEnv { method := "GET", query := some "민법", target := some "prec" } =
      (⟨500, .err "서버 설정 오류: API 키가 누락되었습니다."⟩, ⟨[], []⟩) ∧
    handleText { testTextEnv with apiKey := none }
        { method := "GET", query := some "민법", target := some "prec" } =
      (⟨500, .err "서버 설정 오류: API 키가 누락되었습니다."⟩, ⟨[], []⟩) :=
  have h := C3_missing_key_500 noKeyApiEnv { testTextEnv with apiKey := none }
    { method := "GET", query := some "민법", target := some "prec" }
    (by decide) (by decide) (by decide) (by decide)
  ⟨h.1, h.2.1⟩

/-- C9: with a truthy query and credential, a `target` that is neither `prec`
nor `law` (including an absent target) yields 400 with the invalid-target
message and no upstream fetch at all. -/
theorem C9_invalid_target_400 (env : ApiEnv) (req : Request)
    (hm : req.method ≠ "OPTIONS") (hq : jsTruthy req.query = true)
    (hk : jsTruthy env.apiKey = true)
    (ht : ∀ t, req.target = some t → t ≠ "prec" ∧ t ≠ "law") :
    handleApi env req =
      (⟨400, .err "유효하지 않은 검색 대상입니다. (target 파라미터 오류)"⟩, ⟨[], []⟩) := by
  have h1 : ¬(req.target = some "prec") := fun h => (ht _ h).1 rfl
  have h2 : ¬(req.target = some "law") := fun h => (ht _ h).2 rfl
  simp [handleApi, hm, hq, hk, h1, h2]

/-- Witness for C9 at a concrete request with no `target` parameter. -/
theorem C9_invalid_target_400_witness :
    handleApi testApiEnv { method := "GET", query := some "민법", target := none } =
      (⟨400, .err "유효하지 않은 검색 대상입니다. (target 파라미터 오류)"⟩, ⟨[], []⟩) :=
  C9_invalid_target_400 testApiEnv _ (by decide) (by decide) (by decide)
    (fun _ h => Option.noConfusion h)

/-- C4: when the stage-1 list-search body is a string whose trimmed form begins
with `<!DOCTYPE html`, the handler returns 500 with the documented diagnostic
body, issues zero per-record detail fetches (empty detail trace), and never
consults the XML parser (the outcome is unchanged under any parser oracle) —
for the `prec` and `law` branches of `src/api/index.js` and for
`src/index.js`. -/
theorem C4_html_sniff_500 (env : ApiEnv) (envT : TextEnv) (req : Request) (s : String)
    (hm : req.method ≠ "OPTIONS") (hq : jsTruthy req.query = true)
    (hsniff : jsStartsWith (jsTrim s) "<!DOCTYPE html" = true) :
    (jsTruthy env.apiKey = true → req.target = some "prec" →
      env.precListResult = .strBody s →
      handleApi env req =
        (⟨500, .errDetails "국가법령정보 API 오류: 예상치 못한 HTML 응답 (판례 목록 검색)"
            "API 키가 유효하지 않거나, 요청이 잘못되었을 수 있습니다. 법제처에 문의하여 API 키를 확인해주세요."⟩,
          ⟨[lawSearchUrl env.encodeURIComponent (env.apiKey.getD "") "prec" (req.query.getD "")],
            []⟩) ∧
      ∀ p, handleApi { env with parsePrec := p } req = handleApi env req) ∧
    (jsTruthy env.apiKey = true → req.target = some "law" →
      env.lawListResult = .strBody s →
      handleApi env req =
        (⟨500, .errDetails "국가법령정보 API 오류: 예상치 못한 HTML 응답 (법령 목록 검색)"
            "API 키가 유효하지 않거나, 요청이 잘못되었을 수 있습니다. 법제처에 문의하여 API 키를 확인해주세요."⟩,
          ⟨[lawSearchUrl env.encodeURIComponent (env.apiKey.getD "") "law" (req.query.getD "")],
            []⟩) ∧
      ∀ p, handleApi { env with parseLaw := p } req = handleApi env req) ∧
    (jsTruthy envT.apiKey = true → envT.searchResult = .strBody s →
      handleText envT req =
        (⟨500, .errDetails "국가법령정보 API 오류: 예상치 못한 HTML 응답 (목록 검색)"
            "API 키가 유효하지 않거나, 요청이 잘못되었을 수 있습니다. 법제처에 문의하여 API 키를 확인해주세요."⟩,
          ⟨[lawSearchUrl envT.encodeURIComponent (envT.apiKey.getD "") "prec" (req.query.getD "")],
            []⟩) ∧
      ∀ p, handleText { envT with parsePrec := p } req = handleText envT req) := by
  refine ⟨fun hk ht hfetch => ?_, fun hk ht hfetch => ?_, fun hk hfetch => ?_⟩
  · refine ⟨?_, fun p => ?_⟩ <;>
      simp [handleApi, precBranch, hm, hq, hk, ht, hfetch, hsniff]
  · refine ⟨?_, fun p => ?_⟩ <;>
      simp [handleApi, lawBranch, hm, hq, hk, ht, hfetch, hsniff]
  · refine ⟨?_, fun p => ?_⟩ <;>
      simp [handleText, hm, hq, hk, hfetch, hsniff]

/-- Environment whose stage-1 list response is an HTML error page. -/
def htmlApiEnv : ApiEnv := { testApiEnv with
  precListResult := .strBody "<!DOCTYPE html><html><body>Error</body></html>" }

/-- Witness for C4 at a concrete HTML stage-1 response in the `prec` branch. -/
theorem C4_html_sniff_500_witness :
    handleApi htmlApiEnv { method := "GET", query := some "민법", target := some "prec" } =
      (⟨500, .errDetails "국가법령정보 API 오류: 예상치 못한 HTML 응답 (판례 목록 검색)"
          "API 키가 유효하지 않거나, 요청이 잘못되었을 수 있습니다. 법제처에 문의하여 API 키를 확인해주세요."⟩,
        ⟨[lawSearchUrl htmlApiEnv.encodeURIComponent (htmlApiEnv.apiKey.getD "") "prec" "민법"],
          []⟩) :=
  ((C4_html_sniff_500 htmlApiEnv testTextEnv
      { method := "GET", query := some "민법", target := some "prec" }
      "<!DOCTYPE html><html><body>Error</body></html>"
      (by decide) (by decide) (by decide)).1 (by decide) rfl rfl).1

/-- C5: when the parsed stage-1 list node holds exactly one record as a single
object (not an array), the handler normalizes it to a one-element list, and the
200 response's results array has length 1 with that record's fields mapped to
the normalized shape — for both the `prec` and the `law` branch. -/
theorem C5_single_record (env : ApiEnv) (req : Request) (s : String)
    (item : RawPrec) (itemL : RawLaw)
    (hm : req.method ≠ "OPTIONS") (hq : jsTruthy req.query = true)
    (hk : jsTruthy env.apiKey = true)
    (hsniff : jsStartsWith (jsTrim s) "<!DOCTYPE html" = false) :
    (req.target = some "prec" → env.precListResult = .strBody s →
      env.parsePrec s = .ok (.single item) →
      precListOf (.single item) = [item] ∧
      (handleApi env req).1 = ⟨200, .precResults
        [{ id := jsOr item.«판례일련번호» ""
           caseNumber := jsOr item.«사건번호» "번호 없음"
           title := jsOr item.«사건명» "제목 없음"
           courtName := jsOr item.«법원명» "법원 없음"
           caseType := jsOr item.«사건종류명» "종류 없음"
           decisionDate := jsOr item.«선고일자» "날짜 없음"
           summary := jsOr item.«판시사항» "요약 정보 없음"
           fullText := if jsOr item.«판례일련번호» "" ≠ "" ∧ jsOr item.«판례상세링크» "" ≠ ""
             then precFullText env (jsOr item.«판례상세링크» "")
             else precDefaultFullText
           link := jsOr item.«판례상세링크» "" }]⟩) ∧
    (req.target = some "law" → env.lawListResult = .strBody s →
      env.parseLaw s = .ok (.single itemL) →
      lawListOf (.single itemL) = [itemL] ∧
      (handleApi env req).1 = ⟨200, .lawResults
        [{ id := jsOr itemL.«법령일련번호» ""
           title := jsOr itemL.«법령명» "제목 정보 없음"
           promulgationNumber := jsOr itemL.«공포번호» "번호 없음"
           promulgationDate := jsOr itemL.«공포일자» "날짜 없음"
           department := jsOr itemL.«소관부처» "소관부처 없음"
           link := jsOr itemL.«법령상세링크» "" }]⟩) := by
  refine ⟨fun ht hfetch hparse => ⟨rfl, ?_⟩, fun ht hfetch hparse => ⟨rfl, ?_⟩⟩
  · simp [handleApi, precBranch, precStage2, precListOf, formatPrecItem,
      hm, hq, hk, ht, hfetch, hsniff, hparse, apply_ite]
  · simp [handleApi, lawBranch, lawListOf, formatLawItem,
      hm, hq, hk, ht, hfetch, hsniff, hparse]

/-- A fully-populated raw case record for concrete instantiations. -/
def itemA : RawPrec where
  «판례일련번호» := some "100"
  «판례상세링크» := some "https://example.com/d"
  «사건번호» := some "2020다1234"
  «사건명» := some "계약 사건"
  «법원명» := some "대법원"
  «사건종류명» := some "민사"
  «선고일자» := some "2020.01.01"
  «판시사항» := some "판시 요지"

/-- A fully-populated raw statute record for concrete instantiations. -/
def itemLA : RawLaw where
  «법령일련번호» := some "55"
  «법령명» := some "민법"
  «공포번호» := some "471"
  «공포일자» := some "19580222"
  «소관부처» := some "법무부"
  «법령상세링크» := some "https://example.com/law"

/-- Environment whose stage-1 parses yield exactly one (non-array) record. -/
def singleApiEnv : ApiEnv := { testApiEnv with
  parsePrec := fun _ => .ok (.single itemA)
  parseLaw := fun _ => .ok (.single itemLA) }

/-- Witness for C5: one single-object record in each branch yields a
length-one results array with the mapped fields. -/
theorem C5_single_record_witness :
    (precListOf (.single itemA) = [itemA] ∧
      (handleApi singleApiEnv { method := "GET", query := some "계약", target := some "prec" }).1
        = ⟨200, .precResults
            [{ id := "100", caseNumber := "2020다1234", title := "계약 사건",
               courtName := "대법원", caseType := "민사", decisionDate := "2020.01.01",
               summary := "판시 요지",
               fullText := "판결문 전문을 가져오는 중 오류 발생 (예상치 못한 API 응답).",
               link := "https://example.com/d" }]⟩) ∧
    (lawListOf (.single itemLA) = [itemLA] ∧
      (handleApi singleApiEnv { method := "GET", query := some "민법", target := some "law" }).1
        = ⟨200, .lawResults
            [{ id := "55", title := "민법", promulgationNumber := "471",
               promulgationDate := "19580222", department := "법무부",
               link := "https://example.com/law" }]⟩) :=
  ⟨(C5_single_record singleApiEnv { method := "GET", query := some "계약", target := some "prec" }
      "<PrecSearch></PrecSearch>" itemA itemLA
      (by decide) (by decide) (by decide) (by decide)).1 rfl rfl rfl,
   (C5_single_record singleApiEnv { method := "GET", query := some "민법", target := some "law" }
      "<LawSearch></LawSearch>" itemA itemLA
      (by decide) (by decide) (by decide) (by decide)).2 rfl rfl rfl⟩

/-- A raw case record with every upstream field absent. -/
def emptyRawPrec : RawPrec := ⟨none, none, none, none, none, none, none, none⟩

/-- Environment whose stage-1 parse yields one record with all fields absent. -/
def emptyItemApiEnv : ApiEnv :=
  { testApiEnv with parsePrec := fun _ => .ok (.single emptyRawPrec) }

/-- C1 counterexample: a search request that succeeds (status 200) whose result
record has `id = ""` and `link = ""` — the fallback for the `id` and `link`
fields is the empty string, not a non-empty value. -/
theorem C1_counterexample :
    (handleApi emptyItemApiEnv
        { method := "GET", query := some "민법", target := some "prec" }).1.status = 200 ∧
    (handleApi emptyItemApiEnv
        { method := "GET", query := some "민법", target := some "prec" }).1.body
      = .precResults
          [{ id := "", caseNumber := "번호 없음", title := "제목 없음",
             courtName := "법원 없음", caseType := "종류 없음", decisionDate := "날짜 없음",
             summary := "요약 정보 없음", fullText := "판결문 전문을 가져올 수 없습니다.",
             link := "" }] :=
  ⟨rfl, rfl⟩

/-- C1 (amended): in every normalized record of both handlers, every field
other than `id` and `link` is present and non-empty — each such field has a
non-empty documented fallback that applies when the upstream field is absent,
and enrichment always yields non-empty text — but the `id` and `link` fields
fall back to the empty string (`|| ''`) when the corresponding upstream field
is absent or empty. -/
theorem C1_fallbacks (env : ApiEnv) (envT : TextEnv) (k : String)
    (item : RawPrec) (itemL : RawLaw) :
    ((formatPrecItem env item).1.caseNumber ≠ "" ∧
     (formatPrecItem env item).1.title ≠ "" ∧
     (formatPrecItem env item).1.courtName ≠ "" ∧
     (formatPrecItem env item).1.caseType ≠ "" ∧
     (formatPrecItem env item).1.decisionDate ≠ "" ∧
     (formatPrecItem env item).1.summary ≠ "" ∧
     (formatPrecItem env item).1.fullText ≠ "") ∧
    ((item.«사건번호» = none → (formatPrecItem env item).1.caseNumber = "번호 없음") ∧
     (item.«사건명» = none → (formatPrecItem env item).1.title = "제목 없음") ∧
     (item.«법원명» = none → (formatPrecItem env item).1.courtName = "법원 없음") ∧
     (item.«사건종류명» = none → (formatPrecItem env item).1.caseType = "종류 없음") ∧
     (item.«선고일자» = none → (formatPrecItem env item).1.decisionDate = "날짜 없음") ∧
     (item.«판시사항» = none → (formatPrecItem env item).1.summary = "요약 정보 없음")) ∧
    ((formatPrecItem env item).1.id = jsOr item.«판례일련번호» "" ∧
     (formatPrecItem env item).1.link = jsOr item.«판례상세링크» "" ∧
     (item.«판례일련번호» = none → (formatPrecItem env item).1.id = "") ∧
     (item.«판례상세링크» = none → (formatPrecItem env item).1.link = "")) ∧
    ((formatLawItem itemL).title ≠ "" ∧
     (formatLawItem itemL).promulgationNumber ≠ "" ∧
     (formatLawItem itemL).promulgationDate ≠ "" ∧
     (formatLawItem itemL).department ≠ "" ∧
     (itemL.«법령명» = none → (formatLawItem itemL).title = "제목 정보 없음") ∧
     (formatLawItem itemL).id = jsOr itemL.«법령일련번호» "" ∧
     (formatLawItem itemL).link = jsOr itemL.«법령상세링크» "" ∧
     (itemL.«법령일련번호» = none → (formatLawItem itemL).id = "")) ∧
    ((formatTextItem envT k item).1.fullText ≠ "" ∧
     (formatTextItem envT k item).1.summary ≠ "") := by
  refine ⟨⟨?_, ?_, ?_, ?_, ?_, ?_, ?_⟩, ⟨?_, ?_, ?_, ?_, ?_, ?_⟩,
    ⟨rfl, rfl, ?_, ?_⟩, ⟨?_, ?_, ?_, ?_, ?_, rfl, rfl, ?_⟩, ⟨?_, ?_⟩⟩
  · simp only [formatPrecItem]; exact jsOr_ne_empty _ _ (by decide)
  · simp only [formatPrecItem]; exact jsOr_ne_empty _ _ (by decide)
  · simp only [formatPrecItem]; exact jsOr_ne_empty _ _ (by decide)
  · simp only [formatPrecItem]; exact jsOr_ne_empty _ _ (by decide)
  · simp only [formatPrecItem]; exact jsOr_ne_empty _ _ (by decide)
  · simp only [formatPrecItem]; exact jsOr_ne_empty _ _ (by decide)
  · simp only [formatPrecItem]
    split
    · exact precFullText_ne_empty env _
    · exact precDefaultFullText_ne_empty
  · intro h; simp [formatPrecItem, h, jsOr]
  · intro h; simp [formatPrecItem, h, jsOr]
  · intro h; simp [formatPrecItem, h, jsOr]
  · intro h; simp [formatPrecItem, h, jsOr]
  · intro h; simp [formatPrecItem, h, jsOr]
  · intro h; simp [formatPrecItem, h, jsOr]
  · intro h; simp [formatPrecItem, h, jsOr]
  · intro h; simp [formatPrecItem, h, jsOr]
  · simp only [formatLawItem]; exact jsOr_ne_empty _ _ (by decide)
  · simp only [formatLawItem]; exact jsOr_ne_empty _ _ (by decide)
  · simp only [formatLawItem]; exact jsOr_ne_empty _ _ (by decide)
  · simp only [formatLawItem]; exact jsOr_ne_empty _ _ (by decide)
  · intro h; simp [formatLawItem, h, jsOr]
  · intro h; simp [formatLawItem, h, jsOr]
  · simp only [formatTextItem]
    split
    · exact textFullText_ne_empty envT _
    · exact precDefaultFullText_ne_empty
  · simp only [formatTextItem]; exact jsOr_ne_empty _ _ (by decide)

/-- Witness for C1 (amended) at the all-absent record and a populated statute
record, with the hypotheses of its inner implications discharged. -/
theorem C1_fallbacks_witness :
    (formatPrecItem testApiEnv emptyRawPrec).1.caseNumber = "번호 없음" ∧
    (formatPrecItem testApiEnv emptyRawPrec).1.id = "" ∧
    (formatPrecItem testApiEnv emptyRawPrec).1.link = "" ∧
    (formatPrecItem testApiEnv emptyRawPrec).1.fullText ≠ "" :=
  have h := C1_fallbacks testApiEnv testTextEnv "TESTKEY" emptyRawPrec itemLA
  ⟨h.2.1.1 rfl, h.2.2.1.2.2.1 rfl, h.2.2.1.2.2.2 rfl, h.1.2.2.2.2.2.2⟩

/-- C7: for a case-law request that reaches stage 2, the handler's results
array is the stage-1 search list mapped in order; and any settlement schedule
of the concurrent per-record fetches — any permutation of the record indices,
i.e. any relative completion latency — reassembles by promise index to that
same in-order array. Output order therefore equals stage-1 order regardless of
per-record fetch latency. -/
theorem C7_order_preserved (env : ApiEnv) (req : Request) (s : String) (node : PrecNode)
    (order : List Nat)
    (hm : req.method ≠ "OPTIONS") (hq : jsTruthy req.query = true)
    (hk : jsTruthy env.apiKey = true) (ht : req.target = some "prec")
    (hfetch : env.precListResult = .strBody s)
    (hsniff : jsStartsWith (jsTrim s) "<!DOCTYPE html" = false)
    (hparse : env.parsePrec s = .ok node)
    (hperm : order.Perm (List.range (precListOf node).length)) :
    (handleApi env req).1 = ⟨200, .precResults
      ((precListOf node).map (fun it => (formatPrecItem env it).1))⟩ ∧
    assembleByIndex ((precListOf node).map (fun it => (formatPrecItem env it).1)).length
      (promiseAllResolve ((precListOf node).map (fun it => (formatPrecItem env it).1)) order)
      = ((precListOf node).map (fun it => (formatPrecItem env it).1)).map some := by
  constructor
  · simp [handleApi, precBranch, precStage2, hm, hq, hk, ht, hfetch, hsniff, hparse]
  · exact assembleByIndex_promiseAllResolve _ order (by simpa using hperm)

/-- Environment whose stage-1 parse yields two records, for the C7 witness. -/
def twoItemApiEnv : ApiEnv :=
  { testApiEnv with parsePrec := fun _ => .ok (.array [itemA, emptyRawPrec]) }

/-- Witness for C7 with two records and the reversed settlement schedule
`[1, 0]` (the second fetch completes first). -/
theorem C7_order_preserved_witness :
    (handleApi twoItemApiEnv { method := "GET", query := some "계약", target := some "prec" }).1
      = ⟨200, .precResults
          ((precListOf (.array [itemA, emptyRawPrec])).map
            (fun it => (formatPrecItem twoItemApiEnv it).1))⟩ ∧
    assembleByIndex
        ((precListOf (.array [itemA, emptyRawPrec])).map
          (fun it => (formatPrecItem twoItemApiEnv it).1)).length
        (promiseAllResolve
          ((precListOf (.array [itemA, emptyRawPrec])).map
            (fun it => (formatPrecItem twoItemApiEnv it).1)) [1, 0])
      = ((precListOf (.array [itemA, emptyRawPrec])).map
          (fun it => (formatPrecItem twoItemApiEnv it).1)).map some :=
  C7_order_preserved twoItemApiEnv
    { method := "GET", query := some "계약", target := some "prec" }
    "<PrecSearch></PrecSearch>" (.array [itemA, emptyRawPrec]) [1, 0]
    (by decide) (by decide) (by decide) rfl rfl (by decide) rfl (by decide)

/-- C6: when the detail fetch for one record (`bad`, whose id and link are
present) rejects with message `msg`, the response is still 200; the bad
record's `fullText` is the non-empty failure placeholder carrying `msg`; and
every other record of the same request appears exactly as it does under the
counterfactual fetch oracle `fd'` that may give the bad link any other outcome
but agrees with the actual fetches on every other URL — i.e. as it would have
been had that one fetch not thrown. A single record's failure never aborts or
perturbs the batch. -/
theorem C6_detail_failure_isolated (env : ApiEnv) (fd' : String → DetailOutcome)
    (req : Request) (s msg : String) (pre post : List RawPrec) (bad : RawPrec)
    (hm : req.method ≠ "OPTIONS") (hq : jsTruthy req.query = true)
    (hk : jsTruthy env.apiKey = true) (ht : req.target = some "prec")
    (hfetch : env.precListResult = .strBody s)
    (hsniff : jsStartsWith (jsTrim s) "<!DOCTYPE html" = false)
    (hparse : env.parsePrec s = .ok (.array (pre ++ bad :: post)))
    (hbadId : jsOr bad.«판례일련번호» "" ≠ "")
    (hbadLink : jsOr bad.«판례상세링크» "" ≠ "")
    (hthrow : env.detailFetch (jsOr bad.«판례상세링크» "") = .err msg)
    (hagree : ∀ u, u ≠ jsOr bad.«판례상세링크» "" → fd' u = env.detailFetch u)
    (hother : ∀ it ∈ pre ++ post, jsOr it.«판례상세링크» "" ≠ jsOr bad.«판례상세링크» "") :
    (handleApi env req).1.status = 200 ∧
    (formatPrecItem env bad).1.fullText = "판결문 전문을 가져오는 데 실패했습니다: " ++ msg ∧
    (formatPrecItem env bad).1.fullText ≠ "" ∧
    (handleApi env req).1.body = .precResults
      (pre.map (fun it => (formatPrecItem { env with detailFetch := fd' } it).1)
        ++ (formatPrecItem env bad).1
        :: post.map (fun it => (formatPrecItem { env with detailFetch := fd' } it).1)) := by
  have hstage : (handleApi env req).1 = ⟨200, .precResults
      ((pre ++ bad :: post).map (fun it => (formatPrecItem env it).1))⟩ := by
    simp [handleApi, precBranch, precStage2, precListOf, Function.comp,
      hm, hq, hk, ht, hfetch, hsniff, hparse]
    rfl
  have hpre : pre.map (fun it => (formatPrecItem { env with detailFetch := fd' } it).1)
      = pre.map (fun it => (formatPrecItem env it).1) :=
    List.map_congr_left fun it hit => by
      rw [formatPrecItem_congr env { env with detailFetch := fd' } it
        (hagree _ (hother it (List.mem_append_left _ hit))) rfl rfl]
  have hpost : post.map (fun it => (formatPrecItem { env with detailFetch := fd' } it).1)
      = post.map (fun it => (formatPrecItem env it).1) :=
    List.map_congr_left fun it hit => by
      rw [formatPrecItem_congr env { env with detailFetch := fd' } it
        (hagree _ (hother it (List.mem_append_right _ hit))) rfl rfl]
  have hbad : (formatPrecItem env bad).1.fullText
      = "판결문 전문을 가져오는 데 실패했습니다: " ++ msg := by
    simp [formatPrecItem, hbadId, hbadLink, precFullText, hthrow]
  refine ⟨by rw [hstage], hbad,
    by rw [hbad]; exact String.append_ne_empty_left (by decide), ?_⟩
  rw [hstage]
  simp only [List.map_append, List.map_cons]
  rw [hpre, hpost]

/-- A record whose detail fetch will fail, for the C6 witness. -/
def badItem : RawPrec where
  «판례일련번호» := some "7"
  «판례상세링크» := some "https://example.com/bad"
  «사건번호» := none
  «사건명» := none
  «법원명» := none
  «사건종류명» := none
  «선고일자» := none
  «판시사항» := none

/-- Environment in which only the bad record's detail fetch rejects. -/
def envC6 : ApiEnv := { testApiEnv with
  parsePrec := fun _ => .ok (.array [badItem, itemA])
  detailFetch := fun u => if u = "https://example.com/bad" then .err "boom" else .ok "ok-body" }

/-- Counterfactual fetch oracle for the C6 witness: the bad link succeeds,
everything else is as in `envC6`. -/
def fdC6 : String → DetailOutcome :=
  fun u => if u = "https://example.com/bad" then .ok "fixed" else envC6.detailFetch u

/-- Witness for C6 with one failing record followed by one healthy record. -/
theorem C6_detail_failure_isolated_witness :
    (handleApi envC6 { method := "GET", query := some "계약", target := some "prec" }).1.status
      = 200 ∧
    (formatPrecItem envC6 badItem).1.fullText = "판결문 전문을 가져오는 데 실패했습니다: boom" :=
  have h := C6_detail_failure_isolated envC6 fdC6
    { method := "GET", query := some "계약", target := some "prec" }
    "<PrecSearch></PrecSearch>" "boom" [] [itemA] badItem
    (by decide) (by decide) (by decide) rfl rfl (by decide) rfl
    (by decide) (by decide) (by decide)
    (fun u hu => by
      have hu' : u ≠ "https://example.com/bad" := by simpa [jsOr, badItem] using hu
      simp [fdC6, hu']) (by decide)
  ⟨h.1, h.2.1⟩

/-- A record with an id but no detail-link field, for the C8 counterexample. -/
def itemC8 : RawPrec where
  «판례일련번호» := some "123"
  «판례상세링크» := none
  «사건번호» := none
  «사건명» := none
  «법원명» := none
  «사건종류명» := none
  «선고일자» := none
  «판시사항» := none

/-- Plain-text-handler environment returning the link-less record. -/
def envC8 : TextEnv := { testTextEnv with parsePrec := fun _ => .ok (.single itemC8) }

/-- C8 counterexample: in the plain-text handler (`src/index.js`), a record
whose detail-link reference is absent still triggers a detail fetch — the
guard is `if (caseId)` alone — refuting "the fetch is attempted iff both the
id and the link are present". -/
theorem C8_counterexample :
    itemC8.«판례상세링크» = none ∧
    (handleText envC8 { method := "GET", query := some "계약", target := none }).2.detailFetches
      = ["https://www.law.go.kr/DRF/lawService.do?OC=TESTKEY&target=prec&ID=123&type=TEXT"] :=
  ⟨rfl, rfl⟩

/-- C8 (amended): in `src/api/index.js` the per-record detail fetch is
attempted iff both the record's id and its link are non-empty, and the fetched
URL is that link; in `src/index.js` it is attempted iff the id alone is
non-empty, the URL being built from the credential and the id (the upstream
link is never consulted). In either handler, when no fetch is attempted the
record's `fullText` is the default placeholder. -/
theorem C8_detail_fetch_guard (env : ApiEnv) (envT : TextEnv) (k : String) (item : RawPrec) :
    ((formatPrecItem env item).2 ≠ [] ↔
      jsOr item.«판례일련번호» "" ≠ "" ∧ jsOr item.«판례상세링크» "" ≠ "") ∧
    ((formatPrecItem env item).2 = [] →
      (formatPrecItem env item).1.fullText = precDefaultFullText) ∧
    ((formatPrecItem env item).2 ≠ [] →
      (formatPrecItem env item).2 = [jsOr item.«판례상세링크» ""]) ∧
    ((formatTextItem envT k item).2 ≠ [] ↔ jsOr item.«판례일련번호» "" ≠ "") ∧
    ((formatTextItem envT k item).2 = [] →
      (formatTextItem envT k item).1.fullText = precDefaultFullText) ∧
    ((formatTextItem envT k item).2 ≠ [] →
      (formatTextItem envT k item).2 = [lawServiceUrl k (jsOr item.«판례일련번호» "") "TEXT"]) := by
  by_cases h1 : jsOr item.«판례일련번호» "" = "" <;>
    by_cases h2 : jsOr item.«판례상세링크» "" = "" <;>
      simp [formatPrecItem, formatTextItem, h1, h2]

/-- Witness for C8 (amended): no fetch and the default placeholder for the
all-absent record; a fetch on the credential-and-id URL for the link-less
record in the plain-text handler. -/
theorem C8_detail_fetch_guard_witness :
    (formatPrecItem testApiEnv emptyRawPrec).1.fullText = precDefaultFullText ∧
    (formatTextItem testTextEnv "TESTKEY" itemC8).2
      = [lawServiceUrl "TESTKEY" "123" "TEXT"] :=
  ⟨(C8_detail_fetch_guard testApiEnv testTextEnv "TESTKEY" emptyRawPrec).2.1 rfl,
   (C8_detail_fetch_guard testApiEnv testTextEnv "TESTKEY" itemC8).2.2.2.2.2 (by decide)⟩

/-- The detail-service URL determines the credential: two URLs built with the
same id and type but different keys are different strings. -/
theorem lawServiceUrl_key_inj (k1 k2 caseId ty : String)
    (h : lawServiceUrl k1 caseId ty = lawServiceUrl k2 caseId ty) : k1 = k2 := by
  unfold lawServiceUrl at h
  have hd := congrArg String.data h
  simp only [String.data_append, List.append_assoc] at hd
  exact String.ext (List.append_cancel_right (List.append_cancel_left hd))

/-- C10: in the plain-text handler, each case record's `link` field embeds the
server-side credential: it is the `lawService.do` URL built from the key and
the record id. Two runs differing only in the credential give different link
fields and hence different records; and under the usual success hypotheses the
200 response body contains exactly those records, so the secret flows into the
public response body. -/
theorem C10_credential_in_link (envT : TextEnv) (k1 k2 : String) (item : RawPrec)
    (req : Request) (s : String) (hk : k1 ≠ k2) :
    (formatTextItem envT k1 item).1.link
      = "https://www.law.go.kr/DRF/lawService.do?OC=" ++ k1 ++ "&target=prec&ID="
        ++ jsOr item.«판례일련번호» "" ++ "&type=" ++ "HTML" ∧
    (formatTextItem envT k1 item).1.link ≠ (formatTextItem envT k2 item).1.link ∧
    (formatTextItem envT k1 item).1 ≠ (formatTextItem envT k2 item).1 ∧
    (envT.apiKey = some k1 → jsTruthy envT.apiKey = true → req.method ≠ "OPTIONS" →
      jsTruthy req.query = true → envT.searchResult = .strBody s →
      jsStartsWith (jsTrim s) "<!DOCTYPE html" = false →
      envT.parsePrec s = .ok (.single item) →
      (handleText envT req).1 = ⟨200, .precResults [(formatTextItem envT k1 item).1]⟩) := by
  have hlink : (formatTextItem envT k1 item).1.link ≠ (formatTextItem envT k2 item).1.link :=
    fun h => hk (lawServiceUrl_key_inj k1 k2 (jsOr item.«판례일련번호» "") "HTML" h)
  refine ⟨rfl, hlink, fun h => hlink (congrArg PrecRecord.link h), ?_⟩
  intro hkey hkT hm hq hfetch hsniff hparse
  rw [hkey] at hkT
  simp [handleText, precListOf, hkey, hkT, hm, hq, hfetch, hsniff, hparse]

/-- Plain-text environment holding the first credential, for the C10 witness. -/
def envC10 : TextEnv :=
  { testTextEnv with apiKey := some "KEY1", parsePrec := fun _ => .ok (.single itemA) }

/-- Witness for C10 with credentials `KEY1` and `KEY2` on the same record and
upstream data. -/
theorem C10_credential_in_link_witness :
    (formatTextItem envC10 "KEY1" itemA).1.link ≠ (formatTextItem envC10 "KEY2" itemA).1.link ∧
    (handleText envC10 { method := "GET", query := some "계약", target := none }).1
      = ⟨200, .precResults [(formatTextItem envC10 "KEY1" itemA).1]⟩ :=
  have h := C10_credential_in_link envC10 "KEY1" "KEY2" itemA
    { method := "GET", query := some "계약", target := none }
    "<PrecSearch></PrecSearch>" (by decide)
  ⟨h.2.1, h.2.2.2 rfl (by decide) (by decide) (by decide) rfl (by decide) rfl⟩
